import Mathlib

/-!
Verification of the kline normalization / parsing core of the snapshot
repository (`src/snapshot.py`), plus the indicator contract the spec
describes, as a shallow embedding in Lean 4.

Python JSON-like values are modelled by `JVal` (Python `None` and JSON
`null` are both `JVal.jnull`; Python numbers, ints and floats alike, are
rationals).  Exceptions raised by the Python code are modelled by `Option`:
`none` is a raised error.
-/

/-- A decoded JSON-like Python value: null/None, bool, number (int or
float, modelled as a rational), string, list, or dict (association list,
later duplicate keys overwrite earlier ones, as in Python dicts). -/
inductive JVal : Type
  | jnull : JVal
  | jbool : Bool → JVal
  | jnum : ℚ → JVal
  | jstr : String → JVal
  | jarr : List JVal → JVal
  | jobj : List (String × JVal) → JVal
deriving Repr

/-- One parsed kline: the tuple `(ts_ms, open, high, low, close, volume)`
returned by `parse_kline_row` in `src/snapshot.py`. -/
structure Kline : Type where
  ts : Int
  o : ℚ
  h : ℚ
  l : ℚ
  c : ℚ
  v : ℚ
deriving Repr, DecidableEq

/-- Numeric value of a list of decimal digit characters. -/
def digitsVal (cs : List Char) : ℕ :=
  cs.foldl (fun a ch => a * 10 + (ch.toNat - 48)) 0

/-- Models Python `float(s)` on a string, restricted to plain decimal
literals `[+-] digits [. digits]` (at least one digit); returns `none`
when the string cannot be coerced (Python raises `ValueError`). -/
def parsePyFloat (s : String) : Option ℚ :=
  let cs := s.toList
  let sign : ℚ × List Char :=
    match cs with
    | '-' :: rest => (-1, rest)
    | '+' :: rest => (1, rest)
    | _ => (1, cs)
  let ip := sign.2.takeWhile Char.isDigit
  let rest := sign.2.dropWhile Char.isDigit
  match rest with
  | [] => if ip.isEmpty then none else some (sign.1 * digitsVal ip)
  | '.' :: fp =>
      if fp.all Char.isDigit ∧ ¬(ip.isEmpty ∧ fp.isEmpty) then
        some (sign.1 * ((digitsVal ip : ℚ) + (digitsVal fp : ℚ) / (10 : ℚ) ^ fp.length))
      else none
  | _ => none

/-- Models the inner helper `to_f` of `parse_kline_row`: `None → 0.0`,
numbers pass through (bools are numeric in Python), strings go through
`float(str(x))`, anything else raises. -/
def to_f : JVal → Option ℚ
  | .jnull => some 0
  | .jbool b => some (if b then 1 else 0)
  | .jnum q => some q
  | .jstr s => parsePyFloat s
  | .jarr _ => none
  | .jobj _ => none

/-- Models the inner helper `to_i` of `parse_kline_row`: `None → 0`, an
int passes through, anything else goes through `int(float(str(x)))`
(truncation toward zero), raising when the coercion fails. -/
def to_i : JVal → Option Int
  | .jnull => some 0
  | .jbool b => some (if b then 1 else 0)
  | .jnum q => some (q.num.tdiv q.den)
  | .jstr s => (parsePyFloat s).map (fun q => q.num.tdiv q.den)
  | .jarr _ => none
  | .jobj _ => none

/-- Python dict lookup on an association list: the last binding of the key
wins (later duplicate keys overwrite earlier ones), `none` when absent. -/
def dictGet (fs : List (String × JVal)) (k : String) : Option JVal :=
  fs.foldl (fun acc kv => if kv.1 = k then some kv.2 else acc) none

/-- Models Python `str.lower()` on ASCII keys: lower every character. -/
def lowerStr (s : String) : String := String.mk (s.data.map Char.toLower)

/-- Models `{str(k).lower(): v for k, v in row.items()}`. -/
def lowerFields (fs : List (String × JVal)) : List (String × JVal) :=
  fs.map (fun kv => (lowerStr kv.1, kv.2))

/-- Models a nested `d.get(k1, d.get(k2, ...))` chain: the value of the
first key that is PRESENT (even if its value is null), else `None`. -/
def getChain (fs : List (String × JVal)) : List String → JVal
  | [] => .jnull
  | k :: ks =>
      match dictGet fs k with
      | some v => v
      | none => getChain fs ks

/-- Python truthiness of a value produced by `dict.get` (absent → `None`
→ falsy; `0`, `""`, `[]`, `{}`, `None`, `False` are falsy). -/
def truthy : JVal → Bool
  | .jnull => false
  | .jbool b => b
  | .jnum q => q ≠ 0
  | .jstr s => s ≠ ""
  | .jarr xs => ¬xs.isEmpty
  | .jobj fs => ¬fs.isEmpty

/-- Models a Python `d.get(k1) or d.get(k2) or ... or 0` chain: the first
TRUTHY value, defaulting to the number `0`. -/
def orChain (fs : List (String × JVal)) : List String → JVal
  | [] => .jnum 0
  | k :: ks =>
      let v := (dictGet fs k).getD .jnull
      if truthy v then v else orChain fs ks

/-- Embeds `parse_kline_row` of `src/snapshot.py`: a dict row reads the
timestamp through the `time`/`t`/`ts`/`timestamp` get-chain on lowercased
keys, rescales it from seconds to milliseconds when below 10_000_000_000,
reads `open`/`o`, `high`/`h`, `low`/`l`, `close`/`c`, and the volume
`or`-chain `volume`/`v`/`amount`/`turnover`/`turnover24h`; a list row
needs at least 6 items `[t, o, h, l, c, v, ...]`; any other row type, or
a failed numeric coercion, raises (`none`). -/
def parse_kline_row (row : JVal) : Option Kline :=
  match row with
  | .jobj fields =>
      (to_i (getChain (lowerFields fields) ["time", "t", "ts", "timestamp"])).bind fun ts0 =>
      (to_f (getChain (lowerFields fields) ["open", "o"])).bind fun fo =>
      (to_f (getChain (lowerFields fields) ["high", "h"])).bind fun fh =>
      (to_f (getChain (lowerFields fields) ["low", "l"])).bind fun fl =>
      (to_f (getChain (lowerFields fields) ["close", "c"])).bind fun fc =>
      (to_f (orChain (lowerFields fields)
          ["volume", "v", "amount", "turnover", "turnover24h"])).bind fun fv =>
      some ⟨if ts0 < 10000000000 then ts0 * 1000 else ts0, fo, fh, fl, fc, fv⟩
  | .jarr items =>
      if items.length < 6 then none
      else
        match items with
        | t0 :: o0 :: h0 :: l0 :: c0 :: v0 :: _ =>
            (to_i t0).bind fun ts0 =>
            (to_f o0).bind fun fo =>
            (to_f h0).bind fun fh =>
            (to_f l0).bind fun fl =>
            (to_f c0).bind fun fc =>
            (to_f v0).bind fun fv =>
            some ⟨if ts0 < 10000000000 then ts0 * 1000 else ts0, fo, fh, fl, fc, fv⟩
        | _ => none
  | _ => none

/-- Models the tail of `normalize_klines`: a dict value is wrapped into a
one-element list, a list passes through, anything else raises
(`Klines not list`). -/
def wrapRows : JVal → Option (List JVal)
  | .jobj f => some [.jobj f]
  | .jarr l => some l
  | _ => none

/-- Embeds `normalize_klines` of `src/snapshot.py`: a dict payload with a
`data` field yields that field (a single dict is wrapped into a list); a
dict with `success` and `code` but no `data` yields `obj.get("data", [])`;
any other dict raises; a top-level list passes through; any other
payload type raises. -/
def normalize_klines (obj : JVal) : Option (List JVal) :=
  match obj with
  | .jobj fs =>
      match dictGet fs "data" with
      | some rows => wrapRows rows
      | none =>
          if (dictGet fs "success").isSome && (dictGet fs "code").isSome then
            wrapRows ((dictGet fs "data").getD (.jarr []))
          else none
  | .jarr l => some l
  | _ => none

/-- Models the list comprehension `[parse_kline_row(r) for r in rows]` of
`fetch_klines_for_symbol`: the first row-level exception aborts the whole
batch. -/
def parseRows : List JVal → Option (List Kline)
  | [] => some []
  | r :: rs =>
      match parse_kline_row r, parseRows rs with
      | some k, some ks => some (k :: ks)
      | _, _ => none

/-- Sort key of `parsed.sort(key=lambda x: x[0])`: ascending timestamp. -/
def klineLe (a b : Kline) : Prop := a.ts ≤ b.ts

instance : DecidableRel klineLe := fun a b => inferInstanceAs (Decidable (a.ts ≤ b.ts))

/-- Models `parsed.sort(key=lambda x: x[0])`: a stable ascending sort by
timestamp (Python's sort is stable; so is insertion sort). -/
def sortKlines (l : List Kline) : List Kline := List.insertionSort klineLe l

/-- The pure per-endpoint body of `fetch_klines_for_symbol`: normalize the
payload, parse every row (any row failure aborts), then sort by time. -/
def process_payload (obj : JVal) : Option (List Kline) :=
  match normalize_klines obj with
  | none => none
  | some rows =>
      match parseRows rows with
      | none => none
      | some parsed => some (sortKlines parsed)

/-- Successive differences of a list: `diffs [a, b, c] = [b - a, c - b]`.
These are the closing-price deltas the RSI works on. -/
def diffs : List ℚ → List ℚ
  | a :: b :: rest => (b - a) :: diffs (b :: rest)
  | _ => []

/-- Wilder smoothing step fold: `avg = (avg * 13 + current) / 14`. -/
def wilder (seed : ℚ) (xs : List ℚ) : ℚ :=
  xs.foldl (fun avg x => (avg * 13 + x) / 14) seed

/-- Modelled from the spec: Wilder average gain — seed is the mean of the
first 14 gains (`gain = max Δ 0`), then `avg = (avg * 13 + current) / 14`
over the remaining gains. -/
def avgGain (closes : List ℚ) : ℚ :=
  wilder (((((diffs closes).map (fun d => max d 0)).take 14).sum) / 14)
    (((diffs closes).map (fun d => max d 0)).drop 14)

/-- Modelled from the spec: Wilder average loss — seed is the mean of the
first 14 losses (`loss = max (−Δ) 0`), then `avg = (avg * 13 + current) / 14`
over the remaining losses. -/
def avgLoss (closes : List ℚ) : ℚ :=
  wilder (((((diffs closes).map (fun d => max (-d) 0)).take 14).sum) / 14)
    (((diffs closes).map (fun d => max (-d) 0)).drop 14)

/-- Modelled from the spec: the repository has no indicator code under
`src/`; RSI(14) is taken from spec section 4.5.  Wilder's method: needs at
least 15 closes (14 deltas); RSI is 100 when the average loss is 0,
otherwise `100 − 100 / (1 + avg_gain / avg_loss)`; `none` below 15
closes. -/
def rsi14 (closes : List ℚ) : Option ℚ :=
  if closes.length < 15 then none
  else
    some (if avgLoss closes = 0 then 100
          else 100 - 100 / (1 + avgGain closes / avgLoss closes))

/-! ### General lemmas about the embedding -/

theorem to_i_intCast (t : Int) : to_i (.jnum (t : ℚ)) = some t := by
  simp [to_i, Rat.num_intCast, Rat.den_intCast, Int.tdiv_one]

theorem to_f_ifTruthy (v : ℚ) :
    to_f (if truthy (.jnum v) then .jnum v else .jnum 0) = some v := by
  by_cases hv : v = 0 <;> simp [truthy, to_f, hv]

theorem parse_named_row_eq (fields : List (String × JVal)) (t : Int) (o h l c v : ℚ)
    (hts : to_i (getChain (lowerFields fields) ["time", "t", "ts", "timestamp"]) = some t)
    (ho : to_f (getChain (lowerFields fields) ["open", "o"]) = some o)
    (hh : to_f (getChain (lowerFields fields) ["high", "h"]) = some h)
    (hl : to_f (getChain (lowerFields fields) ["low", "l"]) = some l)
    (hc : to_f (getChain (lowerFields fields) ["close", "c"]) = some c)
    (hv : to_f (orChain (lowerFields fields)
        ["volume", "v", "amount", "turnover", "turnover24h"]) = some v) :
    parse_kline_row (.jobj fields) =
      some ⟨if t < 10000000000 then t * 1000 else t, o, h, l, c, v⟩ := by
  simp only [parse_kline_row, hts, ho, hh, hl, hc, hv, Option.some_bind]

theorem parse_list_row_eq (t0 o0 h0 l0 c0 v0 : JVal) (rest : List JVal)
    (t : Int) (o h l c v : ℚ)
    (hts : to_i t0 = some t) (ho : to_f o0 = some o) (hh : to_f h0 = some h)
    (hl : to_f l0 = some l) (hc : to_f c0 = some c) (hv : to_f v0 = some v) :
    parse_kline_row (.jarr (t0 :: o0 :: h0 :: l0 :: c0 :: v0 :: rest)) =
      some ⟨if t < 10000000000 then t * 1000 else t, o, h, l, c, v⟩ := by
  have hlen : ¬((t0 :: o0 :: h0 :: l0 :: c0 :: v0 :: rest).length < 6) := by
    simp only [List.length_cons]; omega
  simp only [parse_kline_row, if_neg hlen, hts, ho, hh, hl, hc, hv, Option.some_bind]

theorem parseRows_none_of_mem (rows : List JVal) (r : JVal)
    (hr : r ∈ rows) (hfail : parse_kline_row r = none) : parseRows rows = none := by
  induction rows with
  | nil => cases hr
  | cons a as ih =>
      rcases List.mem_cons.mp hr with rfl | hmem
      · simp [parseRows, hfail]
      · cases hp : parse_kline_row a <;> simp [parseRows, hp, ih hmem]

instance : IsTotal Kline klineLe := ⟨fun a b => le_total a.ts b.ts⟩

instance : IsTrans Kline klineLe := ⟨fun _ _ _ hab hbc => le_trans hab hbc⟩

theorem wilder_nonneg (seed : ℚ) (xs : List ℚ) (hs : 0 ≤ seed)
    (hx : ∀ x ∈ xs, 0 ≤ x) : 0 ≤ wilder seed xs := by
  induction xs generalizing seed with
  | nil => exact hs
  | cons a as ih =>
      have ha : 0 ≤ a := hx a (List.mem_cons_self a as)
      show 0 ≤ wilder ((seed * 13 + a) / 14) as
      exact ih ((seed * 13 + a) / 14)
        (div_nonneg (by linarith) (by norm_num))
        (fun x hx' => hx x (List.mem_cons_of_mem _ hx'))

theorem wilder_zeros (xs : List ℚ) (hx : ∀ x ∈ xs, x = 0) : wilder 0 xs = 0 := by
  induction xs with
  | nil => rfl
  | cons a as ih =>
      have ha := hx a (List.mem_cons_self a as)
      show wilder ((0 * 13 + a) / 14) as = 0
      have hseed : ((0 : ℚ) * 13 + a) / 14 = 0 := by rw [ha]; norm_num
      rw [hseed]
      exact ih fun x hmem => hx x (List.mem_cons_of_mem _ hmem)

theorem avgGain_nonneg (closes : List ℚ) : 0 ≤ avgGain closes := by
  refine wilder_nonneg _ _ (div_nonneg (List.sum_nonneg ?_) (by norm_num)) ?_
  · intro x hx
    rcases List.mem_map.mp (List.take_subset 14 _ hx) with ⟨d, _, rfl⟩
    exact le_max_right d 0
  · intro x hx
    rcases List.mem_map.mp (List.drop_subset 14 _ hx) with ⟨d, _, rfl⟩
    exact le_max_right d 0

theorem avgLoss_nonneg (closes : List ℚ) : 0 ≤ avgLoss closes := by
  refine wilder_nonneg _ _ (div_nonneg (List.sum_nonneg ?_) (by norm_num)) ?_
  · intro x hx
    rcases List.mem_map.mp (List.take_subset 14 _ hx) with ⟨d, _, rfl⟩
    exact le_max_right (-d) 0
  · intro x hx
    rcases List.mem_map.mp (List.drop_subset 14 _ hx) with ⟨d, _, rfl⟩
    exact le_max_right (-d) 0

theorem diffs_pos : ∀ l : List ℚ, l.Chain' (· < ·) → ∀ d ∈ diffs l, 0 < d
  | [], _, d, hd => by simp [diffs] at hd
  | [_], _, d, hd => by simp [diffs] at hd
  | a :: b :: rest, hc, d, hd => by
      rw [List.chain'_cons] at hc
      rcases List.mem_cons.mp hd with rfl | hmem
      · linarith [hc.1]
      · exact diffs_pos (b :: rest) hc.2 d hmem

theorem avgLoss_eq_zero_of_mono (closes : List ℚ) (hc : closes.Chain' (· < ·)) :
    avgLoss closes = 0 := by
  have hz : ∀ x ∈ (diffs closes).map (fun d => max (-d) 0), x = 0 := by
    intro x hx
    rcases List.mem_map.mp hx with ⟨d, hd, rfl⟩
    have hdpos := diffs_pos closes hc d hd
    exact max_eq_right (by linarith)
  unfold avgLoss
  rw [List.sum_eq_zero fun x hx => hz x (List.take_subset 14 _ hx), zero_div]
  exact wilder_zeros _ fun x hx => hz x (List.drop_subset 14 _ hx)

theorem opt_bind_none {α β : Type} (x : Option α) (f : α → Option β)
    (hf : ∀ a, f a = none) : x.bind f = none := by
  cases x <;> simp [hf]

/-! ### Claim theorems -/

/-- C1: for every parsed row, named or positional, the coerced integer
timestamp is multiplied by 1000 exactly when it is strictly below
10,000,000,000 and left unchanged otherwise; in particular 1700000000
normalizes to 1700000000000 and 1700000000000 is unchanged, in both the
dict-row and the list-row branch. -/
theorem C1_timestamp_threshold :
    (∀ (fs : List (String × JVal)) (k : Kline) (t : Int),
       parse_kline_row (.jobj fs) = some k →
       to_i (getChain (lowerFields fs) ["time", "t", "ts", "timestamp"]) = some t →
       k.ts = if t < 10000000000 then t * 1000 else t) ∧
    (∀ (x : JVal) (rs : List JVal) (k : Kline) (t : Int),
       parse_kline_row (.jarr (x :: rs)) = some k →
       to_i x = some t →
       k.ts = if t < 10000000000 then t * 1000 else t) ∧
    parse_kline_row (.jobj [("time", .jnum 1700000000), ("open", .jnum 1), ("high", .jnum 2),
        ("low", .jnum 1), ("close", .jnum 2), ("volume", .jnum 3)]) =
      some ⟨1700000000000, 1, 2, 1, 2, 3⟩ ∧
    parse_kline_row (.jobj [("time", .jnum 1700000000000), ("open", .jnum 1), ("high", .jnum 2),
        ("low", .jnum 1), ("close", .jnum 2), ("volume", .jnum 3)]) =
      some ⟨1700000000000, 1, 2, 1, 2, 3⟩ ∧
    parse_kline_row (.jarr [.jnum 1700000000, .jnum 1, .jnum 2, .jnum 1, .jnum 2, .jnum 3]) =
      some ⟨1700000000000, 1, 2, 1, 2, 3⟩ ∧
    parse_kline_row (.jarr [.jnum 1700000000000, .jnum 1, .jnum 2, .jnum 1, .jnum 2, .jnum 3]) =
      some ⟨1700000000000, 1, 2, 1, 2, 3⟩ := by
  refine ⟨?_, ?_, rfl, rfl, rfl, rfl⟩
  · intro fs k t hp ht
    simp only [parse_kline_row, ht, Option.some_bind] at hp
    obtain ⟨fo, ho, hp⟩ := Option.bind_eq_some'.mp hp
    obtain ⟨fh, hh, hp⟩ := Option.bind_eq_some'.mp hp
    obtain ⟨fl, hl, hp⟩ := Option.bind_eq_some'.mp hp
    obtain ⟨fc, hc, hp⟩ := Option.bind_eq_some'.mp hp
    obtain ⟨fv, hv, hp⟩ := Option.bind_eq_some'.mp hp
    cases hp
    rfl
  · intro x rs k t hp ht
    rcases rs with _ | ⟨o0, rs⟩
    · simp [parse_kline_row] at hp
    rcases rs with _ | ⟨h0, rs⟩
    · simp [parse_kline_row] at hp
    rcases rs with _ | ⟨l0, rs⟩
    · simp [parse_kline_row] at hp
    rcases rs with _ | ⟨c0, rs⟩
    · simp [parse_kline_row] at hp
    rcases rs with _ | ⟨v0, rest⟩
    · simp [parse_kline_row] at hp
    have hlen : ¬((x :: o0 :: h0 :: l0 :: c0 :: v0 :: rest).length < 6) := by
      simp only [List.length_cons]; omega
    simp only [parse_kline_row, if_neg hlen, ht, Option.some_bind] at hp
    obtain ⟨fo, ho, hp⟩ := Option.bind_eq_some'.mp hp
    obtain ⟨fh, hh, hp⟩ := Option.bind_eq_some'.mp hp
    obtain ⟨fl, hl, hp⟩ := Option.bind_eq_some'.mp hp
    obtain ⟨fc, hc, hp⟩ := Option.bind_eq_some'.mp hp
    obtain ⟨fv, hv, hp⟩ := Option.bind_eq_some'.mp hp
    cases hp
    rfl

/-- C1 witness: the threshold theorem applied to a concrete dict row with a
seconds timestamp and a concrete list row with a milliseconds timestamp. -/
theorem C1_timestamp_threshold_witness :
    ((⟨1700000000000, 1, 2, 1, 2, 3⟩ : Kline).ts =
       if (1700000000 : Int) < 10000000000 then 1700000000 * 1000 else 1700000000) ∧
    ((⟨1700000000000, 1, 2, 1, 2, 3⟩ : Kline).ts =
       if (1700000000000 : Int) < 10000000000 then 1700000000000 * 1000
       else 1700000000000) :=
  ⟨C1_timestamp_threshold.1
      [("time", .jnum 1700000000), ("open", .jnum 1), ("high", .jnum 2),
       ("low", .jnum 1), ("close", .jnum 2), ("volume", .jnum 3)]
      ⟨1700000000000, 1, 2, 1, 2, 3⟩ 1700000000 rfl rfl,
   C1_timestamp_threshold.2.1 (.jnum 1700000000000)
      [.jnum 1, .jnum 2, .jnum 1, .jnum 2, .jnum 3]
      ⟨1700000000000, 1, 2, 1, 2, 3⟩ 1700000000000 rfl rfl⟩

/-- C4 counterexample: a named row with EVERY required field absent
(timestamp, open, high, low, close) still parses, with all fields
silently defaulted to 0 — the claim says such a row must fail. -/
theorem C4_counterexample :
    parse_kline_row (.jobj []) = some ⟨0, 0, 0, 0, 0, 0⟩ := rfl

/-- C4 amended: a required field that is PRESENT but cannot be coerced to
a number (a non-numeric string, a list, an object) fails the row; but an
ABSENT (or null) required field is silently defaulted to 0 instead of
failing — a row with only a timestamp parses as all-zero prices. -/
theorem C4_coercion_behavior :
    (∀ fs : List (String × JVal),
       to_i (getChain (lowerFields fs) ["time", "t", "ts", "timestamp"]) = none →
       parse_kline_row (.jobj fs) = none) ∧
    (∀ fs : List (String × JVal),
       to_f (getChain (lowerFields fs) ["open", "o"]) = none →
       parse_kline_row (.jobj fs) = none) ∧
    (∀ fs : List (String × JVal),
       to_f (getChain (lowerFields fs) ["high", "h"]) = none →
       parse_kline_row (.jobj fs) = none) ∧
    (∀ fs : List (String × JVal),
       to_f (getChain (lowerFields fs) ["low", "l"]) = none →
       parse_kline_row (.jobj fs) = none) ∧
    (∀ fs : List (String × JVal),
       to_f (getChain (lowerFields fs) ["close", "c"]) = none →
       parse_kline_row (.jobj fs) = none) ∧
    (∀ t : Int, parse_kline_row (.jobj [("time", .jnum (t : ℚ))]) =
       some ⟨if t < 10000000000 then t * 1000 else t, 0, 0, 0, 0, 0⟩) ∧
    parse_kline_row (.jobj [("time", .jnum 1700000000000), ("open", .jstr "abc"),
      ("high", .jnum 2), ("low", .jnum 1), ("close", .jnum 2)]) = none := by
  refine ⟨?_, ?_, ?_, ?_, ?_, ?_, rfl⟩
  · intro fs hcoerce
    simp only [parse_kline_row, hcoerce, Option.none_bind]
  · intro fs hcoerce
    simp only [parse_kline_row]
    refine opt_bind_none _ _ fun ts0 => ?_
    rw [hcoerce]
    rfl
  · intro fs hcoerce
    simp only [parse_kline_row]
    refine opt_bind_none _ _ fun ts0 => opt_bind_none _ _ fun fo => ?_
    rw [hcoerce]
    rfl
  · intro fs hcoerce
    simp only [parse_kline_row]
    refine opt_bind_none _ _ fun ts0 => opt_bind_none _ _ fun fo =>
      opt_bind_none _ _ fun fh => ?_
    rw [hcoerce]
    rfl
  · intro fs hcoerce
    simp only [parse_kline_row]
    refine opt_bind_none _ _ fun ts0 => opt_bind_none _ _ fun fo =>
      opt_bind_none _ _ fun fh => opt_bind_none _ _ fun fl => ?_
    rw [hcoerce]
    rfl
  · intro t
    exact parse_named_row_eq _ t 0 0 0 0 0 (to_i_intCast t) rfl rfl rfl rfl rfl

/-- C4 witness: the amended theorem at concrete rows whose present fields
hold uncoercible list values, and at a concrete timestamp-only row. -/
theorem C4_coercion_behavior_witness :
    parse_kline_row (.jobj [("time", .jarr [])]) = none ∧
    parse_kline_row (.jobj [("open", .jarr [])]) = none ∧
    parse_kline_row (.jobj [("high", .jarr [])]) = none ∧
    parse_kline_row (.jobj [("low", .jarr [])]) = none ∧
    parse_kline_row (.jobj [("close", .jarr [])]) = none :=
  ⟨C4_coercion_behavior.1 [("time", .jarr [])] rfl,
   C4_coercion_behavior.2.1 [("open", .jarr [])] rfl,
   C4_coercion_behavior.2.2.1 [("high", .jarr [])] rfl,
   C4_coercion_behavior.2.2.2.1 [("low", .jarr [])] rfl,
   C4_coercion_behavior.2.2.2.2.1 [("close", .jarr [])] rfl⟩

/-- C5 counterexample: a positional row of length exactly 5 —
`[timestamp, open, high, low, close]` — is REJECTED by the parser, while
the claim says it must parse with volume defaulting to 0. -/
theorem C5_counterexample :
    parse_kline_row (.jarr [.jnum 1700000000000, .jnum 1, .jnum 2, .jnum 1, .jnum 2]) =
      none := rfl

/-- C5 amended: positional rows require at least 6 elements
`[timestamp, open, high, low, close, volume]`: any shorter list fails, and
a row with the 6 positions (plus anything after them, which is ignored)
parses with the volume taken from index 5. -/
theorem C5_positional_min_length :
    (∀ items : List JVal, items.length < 6 → parse_kline_row (.jarr items) = none) ∧
    (∀ (t : Int) (o h l c v : ℚ) (rest : List JVal),
       parse_kline_row (.jarr (.jnum (t : ℚ) :: .jnum o :: .jnum h :: .jnum l ::
           .jnum c :: .jnum v :: rest)) =
         some ⟨if t < 10000000000 then t * 1000 else t, o, h, l, c, v⟩) := by
  constructor
  · intro items hlen
    simp only [parse_kline_row, if_pos hlen]
  · intro t o h l c v rest
    exact parse_list_row_eq _ _ _ _ _ _ rest t o h l c v (to_i_intCast t) rfl rfl rfl rfl rfl

/-- C5 witness: the amended theorem at a concrete 5-element list row. -/
theorem C5_positional_min_length_witness :
    parse_kline_row (.jarr [.jnum 1, .jnum 2, .jnum 3, .jnum 4, .jnum 5]) = none :=
  C5_positional_min_length.1 [.jnum 1, .jnum 2, .jnum 3, .jnum 4, .jnum 5] (by decide)

/-- C7 counterexample: a top-level string payload whose content is valid
JSON of a recognized shape is NOT decoded — `normalize_klines` rejects it
outright — while the same value passed decoded normalizes fine; the claim
says the string should be decoded and normalized like the decoded value. -/
theorem C7_counterexample :
    normalize_klines (.jstr "[[1700000000000, 1, 2, 1, 2, 3]]") = none ∧
    normalize_klines (.jarr [.jarr [.jnum 1700000000000, .jnum 1, .jnum 2, .jnum 1,
        .jnum 2, .jnum 3]]) =
      some [.jarr [.jnum 1700000000000, .jnum 1, .jnum 2, .jnum 1, .jnum 2, .jnum 3]] :=
  ⟨rfl, rfl⟩

/-- C7 amended: every top-level string payload fails normalization
(`Unexpected kline payload type`), with no JSON or literal decode pass
ever attempted on its content. -/
theorem C7_string_payload_always_fails :
    ∀ s : String, normalize_klines (.jstr s) = none := fun _ => rfl

/-- C8: an object payload with a `data` field has its rows taken from that
field ({success, code, data} envelopes included), and a `data` value that
is a single object is wrapped into a one-element list, so such an envelope
normalizes to exactly one row. -/
theorem C8_envelope_extraction :
    (∀ fs g : List (String × JVal),
       dictGet fs "data" = some (.jobj g) →
       normalize_klines (.jobj fs) = some [.jobj g]) ∧
    (∀ (fs : List (String × JVal)) (rows : List JVal),
       dictGet fs "data" = some (.jarr rows) →
       normalize_klines (.jobj fs) = some rows) := by
  constructor <;> intro fs x hdata <;> simp [normalize_klines, hdata, wrapRows]

/-- C8 witness: a concrete `{success, code, data}` envelope whose `data`
is a single object normalizes to exactly one row, and a concrete `data`
list passes through. -/
theorem C8_envelope_extraction_witness :
    normalize_klines (.jobj [("success", .jbool true), ("code", .jnum 0),
        ("data", .jobj [("time", .jnum 1700000000000)])]) =
      some [.jobj [("time", .jnum 1700000000000)]] ∧
    normalize_klines (.jobj [("data", .jarr [.jnum 1, .jnum 2])]) =
      some [.jnum 1, .jnum 2] :=
  ⟨C8_envelope_extraction.1 _ _ rfl, C8_envelope_extraction.2 _ _ rfl⟩

/-- C9 counterexample: a named row whose only volume-like key is `vol`
gets volume 0, NOT the value stored under `vol` (here 5) — `vol` is not in
the volume synonym chain of the code. -/
theorem C9_counterexample :
    parse_kline_row (.jobj [("time", .jnum 1700000000000), ("open", .jnum 1),
        ("high", .jnum 2), ("low", .jnum 1), ("close", .jnum 2), ("vol", .jnum 5)]) =
      some ⟨1700000000000, 1, 2, 1, 2, 0⟩ ∧ (0 : ℚ) ≠ 5 :=
  ⟨rfl, by norm_num⟩

/-- C9 amended: the case-insensitive synonyms actually recognized are
timestamp ∈ {t, time, ts, timestamp}, open ∈ {o, open}, high ∈ {h, high},
low ∈ {l, low}, close ∈ {c, close}, and volume ∈ {v, volume, amount,
turnover, turnover24h}; `vol` is NOT recognized, so a row whose only
volume-like key is `vol` has volume 0 whatever that key holds. -/
theorem C9_synonyms :
    (∀ (t : Int) (o h l c v : ℚ),
       parse_kline_row (.jobj [("t", .jnum (t : ℚ)), ("o", .jnum o), ("h", .jnum h),
           ("l", .jnum l), ("c", .jnum c), ("v", .jnum v)]) =
         some ⟨if t < 10000000000 then t * 1000 else t, o, h, l, c, v⟩) ∧
    (∀ (t : Int) (o h l c v : ℚ),
       parse_kline_row (.jobj [("time", .jnum (t : ℚ)), ("open", .jnum o),
           ("high", .jnum h), ("low", .jnum l), ("close", .jnum c),
           ("volume", .jnum v)]) =
         some ⟨if t < 10000000000 then t * 1000 else t, o, h, l, c, v⟩) ∧
    (∀ (t : Int) (o h l c v : ℚ),
       parse_kline_row (.jobj [("T", .jnum (t : ℚ)), ("O", .jnum o), ("H", .jnum h),
           ("L", .jnum l), ("C", .jnum c), ("V", .jnum v)]) =
         some ⟨if t < 10000000000 then t * 1000 else t, o, h, l, c, v⟩) ∧
    (∀ (t : Int) (o h l c v : ℚ),
       parse_kline_row (.jobj [("ts", .jnum (t : ℚ)), ("open", .jnum o),
           ("high", .jnum h), ("low", .jnum l), ("close", .jnum c),
           ("volume", .jnum v)]) =
         some ⟨if t < 10000000000 then t * 1000 else t, o, h, l, c, v⟩) ∧
    (∀ (t : Int) (o h l c v : ℚ),
       parse_kline_row (.jobj [("timestamp", .jnum (t : ℚ)), ("open", .jnum o),
           ("high", .jnum h), ("low", .jnum l), ("close", .jnum c),
           ("volume", .jnum v)]) =
         some ⟨if t < 10000000000 then t * 1000 else t, o, h, l, c, v⟩) ∧
    (∀ (t : Int) (o h l c v : ℚ),
       parse_kline_row (.jobj [("time", .jnum (t : ℚ)), ("open", .jnum o),
           ("high", .jnum h), ("low", .jnum l), ("close", .jnum c),
           ("amount", .jnum v)]) =
         some ⟨if t < 10000000000 then t * 1000 else t, o, h, l, c, v⟩) ∧
    (∀ (t : Int) (o h l c v : ℚ),
       parse_kline_row (.jobj [("time", .jnum (t : ℚ)), ("open", .jnum o),
           ("high", .jnum h), ("low", .jnum l), ("close", .jnum c),
           ("turnover", .jnum v)]) =
         some ⟨if t < 10000000000 then t * 1000 else t, o, h, l, c, v⟩) ∧
    (∀ (t : Int) (o h l c v : ℚ),
       parse_kline_row (.jobj [("time", .jnum (t : ℚ)), ("open", .jnum o),
           ("high", .jnum h), ("low", .jnum l), ("close", .jnum c),
           ("turnover24h", .jnum v)]) =
         some ⟨if t < 10000000000 then t * 1000 else t, o, h, l, c, v⟩) ∧
    (∀ x : JVal,
       parse_kline_row (.jobj [("time", .jnum 1700000000000), ("open", .jnum 1),
           ("high", .jnum 2), ("low", .jnum 1), ("close", .jnum 2), ("vol", x)]) =
         some ⟨1700000000000, 1, 2, 1, 2, 0⟩) :=
  ⟨fun t o h l c v =>
      parse_named_row_eq _ t o h l c v (to_i_intCast t) rfl rfl rfl rfl (to_f_ifTruthy v),
   fun t o h l c v =>
      parse_named_row_eq _ t o h l c v (to_i_intCast t) rfl rfl rfl rfl (to_f_ifTruthy v),
   fun t o h l c v =>
      parse_named_row_eq _ t o h l c v (to_i_intCast t) rfl rfl rfl rfl (to_f_ifTruthy v),
   fun t o h l c v =>
      parse_named_row_eq _ t o h l c v (to_i_intCast t) rfl rfl rfl rfl (to_f_ifTruthy v),
   fun t o h l c v =>
      parse_named_row_eq _ t o h l c v (to_i_intCast t) rfl rfl rfl rfl (to_f_ifTruthy v),
   fun t o h l c v =>
      parse_named_row_eq _ t o h l c v (to_i_intCast t) rfl rfl rfl rfl (to_f_ifTruthy v),
   fun t o h l c v =>
      parse_named_row_eq _ t o h l c v (to_i_intCast t) rfl rfl rfl rfl (to_f_ifTruthy v),
   fun t o h l c v =>
      parse_named_row_eq _ t o h l c v (to_i_intCast t) rfl rfl rfl rfl (to_f_ifTruthy v),
   fun _ => rfl⟩

/-- C10: when the `volume` (or `v`) key is present but holds a falsy value
(the number 0, the empty string, or null), the volume `or`-chain falls
through to a later key (`amount`, `turnover`, `turnover24h`) when a truthy
one is present, so an explicit zero volume is not preserved when a
turnover-like field coexists in the row. -/
theorem C10_falsy_volume_fallthrough :
    (∀ q : ℚ, q ≠ 0 →
       parse_kline_row (.jobj [("time", .jnum 1700000000000), ("open", .jnum 1),
           ("high", .jnum 2), ("low", .jnum 1), ("close", .jnum 2),
           ("volume", .jnum 0), ("amount", .jnum q)]) =
         some ⟨1700000000000, 1, 2, 1, 2, q⟩) ∧
    (∀ q : ℚ, q ≠ 0 →
       parse_kline_row (.jobj [("time", .jnum 1700000000000), ("open", .jnum 1),
           ("high", .jnum 2), ("low", .jnum 1), ("close", .jnum 2),
           ("v", .jnum 0), ("turnover", .jnum q)]) =
         some ⟨1700000000000, 1, 2, 1, 2, q⟩) ∧
    (∀ q : ℚ, q ≠ 0 →
       parse_kline_row (.jobj [("time", .jnum 1700000000000), ("open", .jnum 1),
           ("high", .jnum 2), ("low", .jnum 1), ("close", .jnum 2),
           ("volume", .jstr ""), ("turnover24h", .jnum q)]) =
         some ⟨1700000000000, 1, 2, 1, 2, q⟩) ∧
    (∀ q : ℚ, q ≠ 0 →
       parse_kline_row (.jobj [("time", .jnum 1700000000000), ("open", .jnum 1),
           ("high", .jnum 2), ("low", .jnum 1), ("close", .jnum 2),
           ("volume", .jnull), ("amount", .jnum q)]) =
         some ⟨1700000000000, 1, 2, 1, 2, q⟩) := by
  refine ⟨?_, ?_, ?_, ?_⟩ <;> intro q _
  · simpa using parse_named_row_eq
      [("time", .jnum 1700000000000), ("open", .jnum 1), ("high", .jnum 2),
       ("low", .jnum 1), ("close", .jnum 2), ("volume", .jnum 0), ("amount", .jnum q)]
      1700000000000 1 2 1 2 q rfl rfl rfl rfl rfl (to_f_ifTruthy q)
  · simpa using parse_named_row_eq
      [("time", .jnum 1700000000000), ("open", .jnum 1), ("high", .jnum 2),
       ("low", .jnum 1), ("close", .jnum 2), ("v", .jnum 0), ("turnover", .jnum q)]
      1700000000000 1 2 1 2 q rfl rfl rfl rfl rfl (to_f_ifTruthy q)
  · simpa using parse_named_row_eq
      [("time", .jnum 1700000000000), ("open", .jnum 1), ("high", .jnum 2),
       ("low", .jnum 1), ("close", .jnum 2), ("volume", .jstr ""), ("turnover24h", .jnum q)]
      1700000000000 1 2 1 2 q rfl rfl rfl rfl rfl (to_f_ifTruthy q)
  · simpa using parse_named_row_eq
      [("time", .jnum 1700000000000), ("open", .jnum 1), ("high", .jnum 2),
       ("low", .jnum 1), ("close", .jnum 2), ("volume", .jnull), ("amount", .jnum q)]
      1700000000000 1 2 1 2 q rfl rfl rfl rfl rfl (to_f_ifTruthy q)

/-- C10 witness: the fall-through theorem at the concrete later-key value
7 for each of the four falsy-volume shapes. -/
theorem C10_falsy_volume_fallthrough_witness :
    parse_kline_row (.jobj [("time", .jnum 1700000000000), ("open", .jnum 1),
        ("high", .jnum 2), ("low", .jnum 1), ("close", .jnum 2),
        ("volume", .jnum 0), ("amount", .jnum 7)]) =
      some ⟨1700000000000, 1, 2, 1, 2, 7⟩ ∧
    parse_kline_row (.jobj [("time", .jnum 1700000000000), ("open", .jnum 1),
        ("high", .jnum 2), ("low", .jnum 1), ("close", .jnum 2),
        ("v", .jnum 0), ("turnover", .jnum 7)]) =
      some ⟨1700000000000, 1, 2, 1, 2, 7⟩ ∧
    parse_kline_row (.jobj [("time", .jnum 1700000000000), ("open", .jnum 1),
        ("high", .jnum 2), ("low", .jnum 1), ("close", .jnum 2),
        ("volume", .jstr ""), ("turnover24h", .jnum 7)]) =
      some ⟨1700000000000, 1, 2, 1, 2, 7⟩ ∧
    parse_kline_row (.jobj [("time", .jnum 1700000000000), ("open", .jnum 1),
        ("high", .jnum 2), ("low", .jnum 1), ("close", .jnum 2),
        ("volume", .jnull), ("amount", .jnum 7)]) =
      some ⟨1700000000000, 1, 2, 1, 2, 7⟩ :=
  ⟨C10_falsy_volume_fallthrough.1 7 (by norm_num),
   C10_falsy_volume_fallthrough.2.1 7 (by norm_num),
   C10_falsy_volume_fallthrough.2.2.1 7 (by norm_num),
   C10_falsy_volume_fallthrough.2.2.2 7 (by norm_num)⟩

/-- C2 counterexample: a recognized 10-row list payload with 2 malformed
rows (length-5 lists) and 8 parseable rows fails WHOLESALE — the endpoint
attempt yields no candles at all — while the claim says it must yield 8
candles plus a skip count of 2. -/
theorem C2_counterexample :
    normalize_klines (.jarr
      [.jarr [.jnum 1000, .jnum 1, .jnum 2, .jnum 1, .jnum 2, .jnum 3],
       .jarr [.jnum 1001, .jnum 1, .jnum 2, .jnum 1, .jnum 2, .jnum 3],
       .jarr [.jnum 1002, .jnum 1, .jnum 2, .jnum 1, .jnum 2, .jnum 3],
       .jarr [.jnum 1003, .jnum 1, .jnum 2, .jnum 1, .jnum 2, .jnum 3],
       .jarr [.jnum 9, .jnum 9, .jnum 9, .jnum 9, .jnum 9],
       .jarr [.jnum 1004, .jnum 1, .jnum 2, .jnum 1, .jnum 2, .jnum 3],
       .jarr [.jnum 1005, .jnum 1, .jnum 2, .jnum 1, .jnum 2, .jnum 3],
       .jarr [.jnum 8, .jnum 8, .jnum 8, .jnum 8, .jnum 8],
       .jarr [.jnum 1006, .jnum 1, .jnum 2, .jnum 1, .jnum 2, .jnum 3],
       .jarr [.jnum 1007, .jnum 1, .jnum 2, .jnum 1, .jnum 2, .jnum 3]]) =
      some
      [.jarr [.jnum 1000, .jnum 1, .jnum 2, .jnum 1, .jnum 2, .jnum 3],
       .jarr [.jnum 1001, .jnum 1, .jnum 2, .jnum 1, .jnum 2, .jnum 3],
       .jarr [.jnum 1002, .jnum 1, .jnum 2, .jnum 1, .jnum 2, .jnum 3],
       .jarr [.jnum 1003, .jnum 1, .jnum 2, .jnum 1, .jnum 2, .jnum 3],
       .jarr [.jnum 9, .jnum 9, .jnum 9, .jnum 9, .jnum 9],
       .jarr [.jnum 1004, .jnum 1, .jnum 2, .jnum 1, .jnum 2, .jnum 3],
       .jarr [.jnum 1005, .jnum 1, .jnum 2, .jnum 1, .jnum 2, .jnum 3],
       .jarr [.jnum 8, .jnum 8, .jnum 8, .jnum 8, .jnum 8],
       .jarr [.jnum 1006, .jnum 1, .jnum 2, .jnum 1, .jnum 2, .jnum 3],
       .jarr [.jnum 1007, .jnum 1, .jnum 2, .jnum 1, .jnum 2, .jnum 3]] ∧
    ([.jarr [.jnum 1000, .jnum 1, .jnum 2, .jnum 1, .jnum 2, .jnum 3],
      .jarr [.jnum 1001, .jnum 1, .jnum 2, .jnum 1, .jnum 2, .jnum 3],
      .jarr [.jnum 1002, .jnum 1, .jnum 2, .jnum 1, .jnum 2, .jnum 3],
      .jarr [.jnum 1003, .jnum 1, .jnum 2, .jnum 1, .jnum 2, .jnum 3],
      .jarr [.jnum 9, .jnum 9, .jnum 9, .jnum 9, .jnum 9],
      .jarr [.jnum 1004, .jnum 1, .jnum 2, .jnum 1, .jnum 2, .jnum 3],
      .jarr [.jnum 1005, .jnum 1, .jnum 2, .jnum 1, .jnum 2, .jnum 3],
      .jarr [.jnum 8, .jnum 8, .jnum 8, .jnum 8, .jnum 8],
      .jarr [.jnum 1006, .jnum 1, .jnum 2, .jnum 1, .jnum 2, .jnum 3],
      .jarr [.jnum 1007, .jnum 1, .jnum 2, .jnum 1, .jnum 2, .jnum 3]]
        : List JVal).length = 10 ∧
    (([.jarr [.jnum 1000, .jnum 1, .jnum 2, .jnum 1, .jnum 2, .jnum 3],
       .jarr [.jnum 1001, .jnum 1, .jnum 2, .jnum 1, .jnum 2, .jnum 3],
       .jarr [.jnum 1002, .jnum 1, .jnum 2, .jnum 1, .jnum 2, .jnum 3],
       .jarr [.jnum 1003, .jnum 1, .jnum 2, .jnum 1, .jnum 2, .jnum 3],
       .jarr [.jnum 9, .jnum 9, .jnum 9, .jnum 9, .jnum 9],
       .jarr [.jnum 1004, .jnum 1, .jnum 2, .jnum 1, .jnum 2, .jnum 3],
       .jarr [.jnum 1005, .jnum 1, .jnum 2, .jnum 1, .jnum 2, .jnum 3],
       .jarr [.jnum 8, .jnum 8, .jnum 8, .jnum 8, .jnum 8],
       .jarr [.jnum 1006, .jnum 1, .jnum 2, .jnum 1, .jnum 2, .jnum 3],
       .jarr [.jnum 1007, .jnum 1, .jnum 2, .jnum 1, .jnum 2, .jnum 3]]
         : List JVal).filter fun r => (parse_kline_row r).isSome).length = 8 ∧
    process_payload (.jarr
      [.jarr [.jnum 1000, .jnum 1, .jnum 2, .jnum 1, .jnum 2, .jnum 3],
       .jarr [.jnum 1001, .jnum 1, .jnum 2, .jnum 1, .jnum 2, .jnum 3],
       .jarr [.jnum 1002, .jnum 1, .jnum 2, .jnum 1, .jnum 2, .jnum 3],
       .jarr [.jnum 1003, .jnum 1, .jnum 2, .jnum 1, .jnum 2, .jnum 3],
       .jarr [.jnum 9, .jnum 9, .jnum 9, .jnum 9, .jnum 9],
       .jarr [.jnum 1004, .jnum 1, .jnum 2, .jnum 1, .jnum 2, .jnum 3],
       .jarr [.jnum 1005, .jnum 1, .jnum 2, .jnum 1, .jnum 2, .jnum 3],
       .jarr [.jnum 8, .jnum 8, .jnum 8, .jnum 8, .jnum 8],
       .jarr [.jnum 1006, .jnum 1, .jnum 2, .jnum 1, .jnum 2, .jnum 3],
       .jarr [.jnum 1007, .jnum 1, .jnum 2, .jnum 1, .jnum 2, .jnum 3]]) = none :=
  ⟨rfl, rfl, rfl, rfl⟩

/-- C2 amended: a row that fails parsing is NOT skipped: any single
malformed row aborts the whole batch for that payload, so normalization
yields no candles (and no skip count) even when the payload variant is
recognized and other rows are parseable. -/
theorem C2_row_failure_aborts_batch :
    ∀ (obj : JVal) (rows : List JVal) (r : JVal),
      normalize_klines obj = some rows → r ∈ rows → parse_kline_row r = none →
      process_payload obj = none := by
  intro obj rows r hnorm hmem hfail
  simp only [process_payload, hnorm, parseRows_none_of_mem rows r hmem hfail]

/-- C2 witness: the abort theorem at a concrete 2-row payload whose first
row is malformed. -/
theorem C2_row_failure_aborts_batch_witness :
    process_payload (.jarr [.jarr [.jnum 9, .jnum 9, .jnum 9, .jnum 9, .jnum 9],
        .jarr [.jnum 1000, .jnum 1, .jnum 2, .jnum 1, .jnum 2, .jnum 3]]) = none :=
  C2_row_failure_aborts_batch
    (.jarr [.jarr [.jnum 9, .jnum 9, .jnum 9, .jnum 9, .jnum 9],
        .jarr [.jnum 1000, .jnum 1, .jnum 2, .jnum 1, .jnum 2, .jnum 3]])
    [.jarr [.jnum 9, .jnum 9, .jnum 9, .jnum 9, .jnum 9],
     .jarr [.jnum 1000, .jnum 1, .jnum 2, .jnum 1, .jnum 2, .jnum 3]]
    (.jarr [.jnum 9, .jnum 9, .jnum 9, .jnum 9, .jnum 9])
    rfl (List.mem_cons_self _ _) rfl

/-- C3 counterexample: two candles sharing a timestamp with different
closes are BOTH in the sorted output — the sorter never removes duplicate
timestamps, while the claim says only the later-input one appears. -/
theorem C3_counterexample :
    sortKlines [⟨1000, 1, 1, 1, 1, 1⟩, ⟨1000, 2, 2, 2, 2, 2⟩] =
      [⟨1000, 1, 1, 1, 1, 1⟩, ⟨1000, 2, 2, 2, 2, 2⟩] ∧
    (⟨1000, 1, 1, 1, 1, 1⟩ : Kline) ≠ ⟨1000, 2, 2, 2, 2, 2⟩ := by
  exact ⟨rfl, by decide⟩

/-- C3 amended: the series sorter stable-sorts ascending by timestamp but
performs NO deduplication: the output is a permutation of the input (every
candle kept, equal-timestamp candles included), is non-decreasing in
timestamp, and sorting is idempotent. -/
theorem C3_sort_no_dedup :
    ∀ l : List Kline,
      (sortKlines l).Sorted klineLe ∧
      List.Perm (sortKlines l) l ∧
      sortKlines (sortKlines l) = sortKlines l := by
  intro l
  exact ⟨List.sorted_insertionSort klineLe l, List.perm_insertionSort klineLe l,
    List.Sorted.insertionSort_eq (List.sorted_insertionSort klineLe l)⟩

/-- C6 (indicator engine modelled from the spec, no indicator code exists
under `src/`): for at least 15 closes RSI14 is defined and lies in
[0, 100]; it is exactly 100 for a strictly increasing close series
(average loss 0); and it is undefined (`none`, never a sentinel number)
for fewer than 15 closes. -/
theorem C6_rsi14_contract :
    (∀ closes : List ℚ, 15 ≤ closes.length →
       ∃ r, rsi14 closes = some r ∧ 0 ≤ r ∧ r ≤ 100) ∧
    (∀ closes : List ℚ, 15 ≤ closes.length → closes.Chain' (· < ·) →
       rsi14 closes = some 100) ∧
    (∀ closes : List ℚ, closes.length < 15 → rsi14 closes = none) := by
  refine ⟨?_, ?_, ?_⟩
  · intro closes hlen
    unfold rsi14
    rw [if_neg (by omega)]
    by_cases hL : avgLoss closes = 0
    · exact ⟨100, by rw [if_pos hL], by norm_num, le_refl 100⟩
    · have hL0 : 0 < avgLoss closes :=
        lt_of_le_of_ne (avgLoss_nonneg closes) (Ne.symm hL)
      have hrs : 0 ≤ avgGain closes / avgLoss closes :=
        div_nonneg (avgGain_nonneg closes) hL0.le
      have h1 : (0 : ℚ) < 1 + avgGain closes / avgLoss closes := by linarith
      have h2 : 100 / (1 + avgGain closes / avgLoss closes) ≤ 100 := by
        rw [div_le_iff₀ h1]; nlinarith
      have h3 : 0 ≤ 100 / (1 + avgGain closes / avgLoss closes) := by positivity
      exact ⟨_, by rw [if_neg hL], by linarith, by linarith⟩
  · intro closes hlen hmono
    unfold rsi14
    rw [if_neg (by omega), if_pos (avgLoss_eq_zero_of_mono closes hmono)]
  · intro closes hlen
    unfold rsi14
    rw [if_pos hlen]

/-- C6 witness: the RSI contract at a concrete strictly increasing
15-close series (RSI defined, in bounds, equal to 100) and at a concrete
3-close series (RSI undefined). -/
theorem C6_rsi14_contract_witness :
    (∃ r, rsi14 [1, 2, 3, 4, 5, 6, 7, 8, 9, 10, 11, 12, 13, 14, 15] = some r ∧
       0 ≤ r ∧ r ≤ 100) ∧
    rsi14 [1, 2, 3, 4, 5, 6, 7, 8, 9, 10, 11, 12, 13, 14, 15] = some 100 ∧
    rsi14 [1, 2, 3] = none :=
  ⟨C6_rsi14_contract.1 [1, 2, 3, 4, 5, 6, 7, 8, 9, 10, 11, 12, 13, 14, 15] (by decide),
   C6_rsi14_contract.2.1 [1, 2, 3, 4, 5, 6, 7, 8, 9, 10, 11, 12, 13, 14, 15]
     (by decide) (by norm_num [List.chain'_cons, List.chain'_singleton]),
   C6_rsi14_contract.2.2 [1, 2, 3] (by decide)⟩
